import Mathlib

/-!
Verification of the jupyterhub-scripts image pipeline.

The development shallowly embeds the two Python scripts of the repository:

* src/images/scaler/src/main.py — the transform pipeline: a retry wrapper
  around WebDAV calls (webdav_exception_handler), prefix-filtered discovery
  (get_images_list), the per-item download / rescale / upload / delete chain
  (multi_threading_run) and the barrier-batching thread scheduler of the
  main loop.
* src/images/mover/src/main.py — the tag-driven relocation: destination
  computation and move plus tag-unassign (move_image), driven per item by
  the main loop (process_node below).

Pure computations (path and destination strings, the discovery filter) are
translated directly.  Effectful remote calls are embedded as explicit state
passing: each remote operation's result is drawn from an environment value
(a list of per-attempt outcomes for the retry wrapper, one outcome per
operation elsewhere), and each run yields the final state together with the
ordered list of operations it performed.  Exceptions become early exits
that report the escaping error.
-/

namespace JHScripts

/-- Python s.split(sep)[-1] for sep = "/": the characters after the last
slash (the whole string when no slash occurs).  Used by the scaler for
file basenames and by the mover for node.user_path.split('/')[-1]. -/
def lastComponent (s : String) : String :=
  String.mk ((s.toList.reverse.takeWhile (fun c => c != '/')).reverse)

/-- Python s.startswith(pre): prefix test on the character lists. -/
def strStarts (s pre : String) : Bool := pre.toList.isPrefixOf s.toList

/-- Worker for pyRemoveAll.  Python str.replace(pat, '') scans the string
left to right and removes each leftmost non-overlapping occurrence of pat.
The Nat argument counts characters still to be skipped from an occurrence
already matched; at 0 the scan looks for the next occurrence. -/
def removeAllAux (pat : List Char) : Nat → List Char → List Char
  | _, [] => []
  | Nat.succ k, _ :: rest => removeAllAux pat k rest
  | 0, c :: rest =>
    if pat.isPrefixOf (c :: rest) && !pat.isEmpty then
      removeAllAux pat (pat.length - 1) rest
    else
      c :: removeAllAux pat 0 rest

/-- Python tag_name.replace(pat, ''): every leftmost non-overlapping
occurrence of pat is removed, not only a leading one. -/
def pyRemoveAll (pat s : String) : String :=
  String.mk (removeAllAux pat.toList 0 s.toList)

/-- Does pat occur (as a contiguous sublist) anywhere in s? -/
def hasOccur (pat : List Char) : List Char → Bool
  | [] => pat.isEmpty
  | c :: rest => pat.isPrefixOf (c :: rest) || hasOccur pat rest

/-- Removal of one leading occurrence of pat only, as the specification
sentence "strip the leading parentMarker-colon literal" reads. -/
def stripLeading (pat s : List Char) : List Char :=
  if pat.isPrefixOf s then s.drop pat.length else s

/-- Destination path computed by move_image (mover main.py line 132):
IMAGES_ROOT_DIR / tag_name.replace(PARENT_TAG_VALUE + ':', '') /
node.user_path.split('/')[-1]. -/
def move_image_target (root marker tagName userPath : String) : String :=
  root ++ "/" ++ pyRemoveAll (marker ++ ":") tagName ++ "/" ++ lastComponent userPath

/-- Destination path as the specification words it: the display name with
only the leading marker-colon literal stripped.  Stated for comparison
with move_image_target, which is the translation of the code. -/
def move_image_target_spec (root marker tagName userPath : String) : String :=
  root ++ "/" ++ String.mk (stripLeading (marker ++ ":").toList tagName.toList)
    ++ "/" ++ lastComponent userPath

/-- Result of one attempt of a remote operation: normal return, the
distinguishable connectivity failure (webdav3 NoConnection or
ConnectionException; nc_py_api network error for the mover), or any
other exception, identified by a numeric code. -/
inductive Outcome (α : Type) where
  | ok (v : α)
  | connErr
  | otherErr (e : Nat)
deriving DecidableEq

/-- Error escaping a remote call: the connectivity condition or another
exception. -/
inductive CallError where
  | conn
  | other (e : Nat)
deriving DecidableEq

/-- Retry wrapper of scaler main.py lines 78-91.  The decorated operation
is run in a while-True loop; a connectivity failure is logged, the loop
sleeps 180 seconds and retries the identical call; any other outcome
leaves the loop.  The argument lists the outcome of each successive
attempt; the result pairs what the wrapped call finally does with the
total backoff time slept, and is none when the trace ends with the
wrapper still retrying. -/
def webdav_exception_handler {α : Type} :
    List (Outcome α) → Option (Except CallError α × Nat)
  | [] => none
  | Outcome.ok v :: _ => some (Except.ok v, 0)
  | Outcome.otherErr e :: _ => some (Except.error (CallError.other e), 0)
  | Outcome.connErr :: rest =>
    (webdav_exception_handler rest).map (fun r => (r.1, r.2 + 180))

/-- An undecorated remote call, as the mover issues them: the first
outcome is the result, and a connectivity failure escapes as an error
instead of being retried. -/
def direct_remote_call {α : Type} :
    List (Outcome α) → Option (Except CallError α × Nat)
  | [] => none
  | Outcome.ok v :: _ => some (Except.ok v, 0)
  | Outcome.otherErr e :: _ => some (Except.error (CallError.other e), 0)
  | Outcome.connErr :: _ => some (Except.error CallError.conn, 0)

/-- One entry of webdav_client.list(raw, get_info=True).  A field is none
when the Python dictionary lacks it (or holds a value of the wrong shape),
so that reading it raises KeyError / TypeError / AttributeError. -/
structure RawEntry where
  path : Option String
  isdir : Option Bool
deriving DecidableEq

/-- Body of the per-entry try block of get_images_list (scaler main.py
lines 104-111).  Returns the path appended to files_for_processing (if
any) and whether the except branch logged the entry.  Python evaluates
filename and name_condition first, and short-circuits the conjunction, so
a missing isdir raises (and is logged) only when name_condition holds. -/
def entry_scan (prefixes : List String) (e : RawEntry) : Option String × Bool :=
  match e.path with
  | none => (none, true)
  | some p =>
    let filename := lastComponent p
    let nameCondition := prefixes.any (fun s => strStarts filename s)
    if nameCondition then
      match e.isdir with
      | none => (none, true)
      | some d => (if d then none else some p, false)
    else (none, false)

/-- Discovery loop of get_images_list (scaler main.py lines 94-112):
first component is files_for_processing in listing order, second the
entries logged by the except branch, in listing order. -/
def get_images_list (prefixes : List String) :
    List RawEntry → List String × List RawEntry
  | [] => ([], [])
  | e :: rest =>
    let r := get_images_list prefixes rest
    match entry_scan prefixes e with
    | (some p, _) => (p :: r.1, r.2)
    | (none, true) => (r.1, e :: r.2)
    | (none, false) => (r.1, r.2)

/-- A well-formed listing entry (both fields present) from a path and an
isdir flag. -/
def wfEntry (e : String × Bool) : RawEntry := RawEntry.mk (some e.1) (some e.2)

/-- The well-formed content of an entry, none when a field is missing. -/
def wfOf (e : RawEntry) : Option (String × Bool) :=
  match e.path, e.isdir with
  | some p, some d => some (p, d)
  | _, _ => none

/-- Prefix filter as the specification words it: keep exactly the
non-directory entries whose base name starts with one of the configured
prefixes, in listing order, and return their paths. -/
def prefixFilterSpec (prefixes : List String) (entries : List (String × Bool)) :
    List String :=
  (entries.filter
    (fun e => !e.2 && prefixes.any (fun s => strStarts (lastComponent e.1) s))).map
    Prod.fst

/-- Environment of one multi_threading_run call.  The three WebDAV steps
are decorated with the retry wrapper, so connectivity failures never
escape them; each Ok flag tells whether the step finally completes
normally (true) or raises a non-connectivity error (false).  newName is
the timestamped randomized output name generated by increase_resolution,
and transformOk tells whether cv2.imwrite left the output file on disk
(the os.path.exists check of line 179). -/
structure ScalerEnv where
  downloadOk : Bool
  transformOk : Bool
  newName : String
  uploadOk : Bool
  deleteOk : Bool
deriving DecidableEq

/-- Local scratch files and remote files visible to one scaler task. -/
structure FS where
  localFiles : List String
  remoteFiles : List String
deriving DecidableEq

/-- Operations attempted by a scaler task, each with the paths it used and
whether it completed. -/
inductive SOp where
  | download (remote loc : String) (ok : Bool)
  | transformOut (input output : String) (produced : Bool)
  | removeLocal (p : String)
  | upload (loc remote : String) (ok : Bool)
  | deleteSrc (remote : String) (ok : Bool)
deriving DecidableEq

/-- One task of the transform pipeline, multi_threading_run (scaler
main.py lines 187-198) with the bodies of download_image,
increase_resolution, upload_image and delete_source_image inlined:

* download_image rebuilds the remote path as RAW_REMOTE_DIR/basename and
  stores the file at WORKDIR/basename;
* increase_resolution writes OUTPUT_DIR/newName and removes the input
  only when the output exists on disk afterwards;
* upload_image sends OUTPUT_DIR/newName to UNSORTED_REMOTE_DIR/basename
  and removes the local copy; webdav3 upload_sync raises (a
  non-connectivity error) when the local file does not exist, which ends
  the task;
* delete_source_image removes RAW_REMOTE_DIR/basename of the original.

A step that raises ends the task (the exception escapes the thread), so
the run returns the state reached so far and the list of operations
attempted. -/
def multi_threading_run (raw unsorted workdir outdir : String)
    (env : ScalerEnv) (file : String) (st : FS) : FS × List SOp :=
  let filename := lastComponent file
  let remoteSrc := raw ++ "/" ++ filename
  let localIn := workdir ++ "/" ++ filename
  if env.downloadOk then
    let st1 : FS := { st with localFiles := localIn :: st.localFiles }
    let outFile := outdir ++ "/" ++ env.newName
    let step2 :=
      if env.transformOk then
        (FS.mk (outFile :: st1.localFiles.erase localIn) st1.remoteFiles,
          [SOp.download remoteSrc localIn true,
           SOp.transformOut localIn outFile true,
           SOp.removeLocal localIn])
      else
        (st1, [SOp.download remoteSrc localIn true,
               SOp.transformOut localIn outFile false])
    let st2 := step2.1
    let evs2 := step2.2
    let remoteDst := unsorted ++ "/" ++ lastComponent outFile
    if st2.localFiles.contains outFile then
      if env.uploadOk then
        let st3 : FS := FS.mk (st2.localFiles.erase outFile)
          (remoteDst :: st2.remoteFiles)
        if env.deleteOk then
          (FS.mk st3.localFiles (st3.remoteFiles.erase remoteSrc),
            evs2 ++ [SOp.upload outFile remoteDst true,
                     SOp.deleteSrc remoteSrc true])
        else
          (st3, evs2 ++ [SOp.upload outFile remoteDst true,
                         SOp.deleteSrc remoteSrc false])
      else (st2, evs2 ++ [SOp.upload outFile remoteDst false])
    else (st2, evs2 ++ [SOp.upload outFile remoteDst false])
  else
    (st, [SOp.download remoteSrc localIn false])

/-- Scan of a scaler trace: every source deletion must come after an
upload that completed.  The Boolean accumulator records whether a
completed upload has been seen. -/
def deleteOnlyAfterUpload (seen : Bool) : List SOp → Bool
  | [] => true
  | SOp.deleteSrc _ _ :: rest => seen && deleteOnlyAfterUpload seen rest
  | SOp.upload _ _ ok :: rest => deleteOnlyAfterUpload (seen || ok) rest
  | _ :: rest => deleteOnlyAfterUpload seen rest

/-- Concurrency ceiling of both scripts (THREADS_LIMIT = 10). -/
def THREADS_LIMIT : Nat := 10

/-- Scheduler events: starting one worker thread, or joining every thread
of the current batch (which ends only when all of them have terminated). -/
inductive SEv where
  | start
  | joinAll
deriving DecidableEq

/-- Scheduling loop of the scaler main block (lines 209-219), carrying
len(thread_poll): when the batch is full, join every thread of the batch
and clear it before starting the next one; after the last item, join the
remaining threads. -/
def sched {α : Type} (poll : Nat) : List α → List SEv
  | [] => [SEv.joinAll]
  | _ :: rest =>
    if THREADS_LIMIT ≤ poll then
      SEv.joinAll :: SEv.start :: sched 1 rest
    else
      SEv.start :: sched (poll + 1) rest

/-- Events of one scheduling cycle: nothing when the listing is empty
(the if-objects branch is skipped), the scheduling loop otherwise. -/
def scheduler_events {α : Type} : List α → List SEv
  | [] => []
  | x :: rest => sched 0 (x :: rest)

/-- Does the number of live threads stay at most limit across the event
list, starting from c live threads?  A start adds a thread (its count is
checked at once); a joinAll waits for all of them, after which none run. -/
def boundedBy (limit : Nat) : Nat → List SEv → Bool
  | c, [] => decide (c ≤ limit)
  | c, SEv.start :: rest => decide (c + 1 ≤ limit) && boundedBy limit (c + 1) rest
  | _, SEv.joinAll :: rest => boundedBy limit 0 rest

/-- A Nextcloud system tag: numeric identifier and display name. -/
structure Tag where
  tag_id : Nat
  display_name : String
deriving DecidableEq

/-- The mover's view of one remote item: its path and its ordered tag
list, as the remote store holds them. -/
structure ItemState where
  path : String
  tags : List Tag
deriving DecidableEq

/-- Outcomes of the two remote mutations issued by move_image.  The mover
has no retry decorator, so each call consumes its first outcome
directly. -/
structure MoverEnv where
  moveOutcome : Outcome Unit
  unassignOutcome : Outcome Unit
deriving DecidableEq

/-- Remote operations attempted by the mover, with completion flags. -/
inductive MOp where
  | getTags
  | move (src dst : String) (ok : Bool)
  | unassign (tagId : Nat) (ok : Bool)
deriving DecidableEq

/-- move_image (mover main.py lines 100-138): read tags[0], build the
target path, move the file, then unassign the tag.  The calls are direct
(no retry wrapper); an exception aborts the script, reported as the third
component.  An empty tag list would raise IndexError at tags[0] before
any remote call (the main loop never calls move_image in that case).
A completed unassign removes every tag carrying the read identifier from
the item. -/
def move_image_run (root marker : String) (env : MoverEnv) (st : ItemState) :
    ItemState × List MOp × Option CallError :=
  match st.tags with
  | [] => (st, [], some (CallError.other 0))
  | t :: _ =>
    let target := move_image_target root marker t.display_name st.path
    match env.moveOutcome with
    | Outcome.connErr =>
      (st, [MOp.move st.path target false], some CallError.conn)
    | Outcome.otherErr e =>
      (st, [MOp.move st.path target false], some (CallError.other e))
    | Outcome.ok _ =>
      let st1 : ItemState := { st with path := target }
      match env.unassignOutcome with
      | Outcome.connErr =>
        (st1, [MOp.move st.path target true, MOp.unassign t.tag_id false],
          some CallError.conn)
      | Outcome.otherErr e =>
        (st1, [MOp.move st.path target true, MOp.unassign t.tag_id false],
          some (CallError.other e))
      | Outcome.ok _ =>
        ({ st1 with tags := st1.tags.filter (fun x => x.tag_id ≠ t.tag_id) },
          [MOp.move st.path target true, MOp.unassign t.tag_id true], none)

/-- Per-item body of the mover main loop (lines 152-155): query the tags
of the node (a remote read), and call move_image only when the list is
non-empty. -/
def process_node (root marker : String) (env : MoverEnv) (st : ItemState) :
    ItemState × List MOp × Option CallError :=
  if 0 < st.tags.length then
    let r := move_image_run root marker env st
    (r.1, MOp.getTags :: r.2.1, r.2.2)
  else (st, [MOp.getTags], none)

/-- Scan of a mover trace: every unassign must come after a move that
completed. -/
def unassignOnlyAfterMove (seen : Bool) : List MOp → Bool
  | [] => true
  | MOp.unassign _ _ :: rest => seen && unassignOnlyAfterMove seen rest
  | MOp.move _ _ ok :: rest => unassignOnlyAfterMove (seen || ok) rest
  | _ :: rest => unassignOnlyAfterMove seen rest

theorem removeAllAux_skip (pat : List Char) :
    ∀ (xs rest : List Char), removeAllAux pat xs.length (xs ++ rest) = removeAllAux pat 0 rest := by
  intro xs
  induction xs with
  | nil => intro rest; rfl
  | cons x xs ih => intro rest; simpa [removeAllAux] using ih rest

theorem removeAllAux_no_occur (pat : List Char) :
    ∀ s : List Char, hasOccur pat s = false → removeAllAux pat 0 s = s := by
  intro s
  induction s with
  | nil => intro _; rfl
  | cons c rest ih =>
    intro h
    simp only [hasOccur, Bool.or_eq_false_iff] at h
    simp [removeAllAux, h.1, ih h.2]

theorem removeAllAux_strip (pat rest : List Char) (hne : pat ≠ [])
    (hno : hasOccur pat rest = false) : removeAllAux pat 0 (pat ++ rest) = rest := by
  cases pat with
  | nil => exact absurd rfl hne
  | cons p ps =>
    have hpre : (p :: ps).isPrefixOf (p :: (ps ++ rest)) = true := by
      rw [List.isPrefixOf_iff_prefix]
      exact List.prefix_append (p :: ps) rest
    have hlen : (p :: ps).length - 1 = ps.length := by simp
    calc removeAllAux (p :: ps) 0 ((p :: ps) ++ rest)
        = removeAllAux (p :: ps) ps.length (ps ++ rest) := by
          simp [removeAllAux, hpre, hlen]
      _ = removeAllAux (p :: ps) 0 rest := removeAllAux_skip (p :: ps) ps rest
      _ = rest := removeAllAux_no_occur (p :: ps) rest hno

theorem pyRemoveAll_strip (marker cat : String)
    (hno : hasOccur (marker ++ ":").toList cat.toList = false) :
    pyRemoveAll (marker ++ ":") ((marker ++ ":") ++ cat) = cat := by
  unfold pyRemoveAll
  have hdata : ((marker ++ ":") ++ cat).toList = (marker ++ ":").toList ++ cat.toList :=
    String.data_append (marker ++ ":") cat
  have hne : (marker ++ ":").toList ≠ [] := by
    have : (marker ++ ":").toList = marker.toList ++ [':'] := String.data_append marker ":"
    simp [this]
  rw [hdata, removeAllAux_strip _ _ hne hno]
  rfl

/-- C1 counterexample: the claim reads the destination category as the
display name with only the leading marker-colon literal stripped, but the
code (tag_name.replace(PARENT_TAG_VALUE + ':', ''), mover main.py line
132) removes every occurrence of the literal.  On the display name
ai:ai:cats with sentinel ai, the code yields R/cats/f.jpg while the claim
demands R/ai:cats/f.jpg. -/
theorem C1_counterexample :
    move_image_target "R" "ai" "ai:ai:cats" "u/f.jpg" = "R/cats/f.jpg"
    ∧ move_image_target_spec "R" "ai" "ai:ai:cats" "u/f.jpg" = "R/ai:cats/f.jpg"
    ∧ move_image_target "R" "ai" "ai:ai:cats" "u/f.jpg"
        ≠ move_image_target_spec "R" "ai" "ai:ai:cats" "u/f.jpg" :=
  ⟨by decide, by decide, by decide⟩

/-- C1 (amended): the relocation destination computed by move_image is
ImagesRootDir/category/baseName where category is the first tag's display
name with every leftmost non-overlapping occurrence of the
parentMarker-colon literal removed (not only a leading one).  For a
display name of the form marker:cat in which the literal does not occur
again inside cat, this coincides with stripping the leading literal, and
the destination is ImagesRootDir/cat/baseName; in particular with
sentinel ai and first tag ai:cats the destination is
ImagesRootDir/cats/fileName. -/
theorem C1_amended_target (root marker cat userPath : String)
    (hno : hasOccur (marker ++ ":").toList cat.toList = false) :
    move_image_target root marker ((marker ++ ":") ++ cat) userPath
      = root ++ "/" ++ cat ++ "/" ++ lastComponent userPath := by
  unfold move_image_target
  rw [pyRemoveAll_strip marker cat hno]

/-- C1 witness: the amended statement evaluated with sentinel ai, first
tag ai:cats and source file unsorted/f.jpg. -/
theorem C1_witness :
    hasOccur ("ai" ++ ":").toList ("cats" : String).toList = false
    ∧ move_image_target "Images" "ai" (("ai" ++ ":") ++ "cats") "unsorted/f.jpg"
        = "Images" ++ "/" ++ "cats" ++ "/" ++ lastComponent "unsorted/f.jpg" :=
  ⟨by decide, C1_amended_target "Images" "ai" "cats" "unsorted/f.jpg" (by decide)⟩

theorem webdav_retry_liveness {α : Type} (n : Nat) (v : α) (rest : List (Outcome α)) :
    webdav_exception_handler (List.replicate n Outcome.connErr ++ Outcome.ok v :: rest)
      = some (Except.ok v, 180 * n) := by
  induction n with
  | zero => rfl
  | succ k ih =>
    rw [List.replicate_succ, List.cons_append]
    simp only [webdav_exception_handler, ih, Option.map_some', Option.some_inj,
      Prod.mk.injEq, true_and]
    omega

/-- C2: the retry wrapper runs the wrapped remote operation; after any
number N of consecutive connectivity failures followed by a normal
return, it yields that return with exactly N backoff sleeps of 180 time
units (and no retry limit caps N), while a non-connectivity failure on
the first attempt is propagated unchanged with no sleep. -/
theorem C2_retry_wrapper {α : Type} (n : Nat) (v : α) (rest : List (Outcome α)) :
    webdav_exception_handler (List.replicate n Outcome.connErr ++ Outcome.ok v :: rest)
      = some (Except.ok v, 180 * n)
    ∧ ∀ (e : Nat) (tr : List (Outcome α)),
        webdav_exception_handler (Outcome.otherErr e :: tr)
          = some (Except.error (CallError.other e), 0) :=
  ⟨webdav_retry_liveness n v rest, fun _ _ => rfl⟩

theorem wrapper_never_conn {α : Type} :
    ∀ (tr : List (Outcome α)) (r : Except CallError α) (t : Nat),
      webdav_exception_handler tr = some (r, t) → r ≠ Except.error CallError.conn := by
  intro tr
  induction tr with
  | nil => intro r t h; exact absurd h (by simp [webdav_exception_handler])
  | cons o rest ih =>
    intro r t h
    cases o with
    | ok v =>
      simp only [webdav_exception_handler, Option.some_inj, Prod.mk.injEq] at h
      rw [← h.1]
      simp
    | otherErr e =>
      simp only [webdav_exception_handler, Option.some_inj, Prod.mk.injEq] at h
      rw [← h.1]
      simp
    | connErr =>
      simp only [webdav_exception_handler, Option.map_eq_some'] at h
      obtain ⟨⟨r1, t1⟩, h1, h2⟩ := h
      have := ih r1 t1 h1
      simp only [Prod.mk.injEq] at h2
      rw [← h2.1]
      exact this

/-- C5 counterexample: the claim says each relocation transition invokes
its remote operation via the retry wrapper, so that a connectivity
failure triggers wait-and-retry.  The mover script defines no wrapper and
calls the Nextcloud client directly (mover main.py lines 74-81, 100-138):
on the same outcomes (one connectivity failure, then success) the
relocation move propagates the connectivity error out of the state
machine, while the scaler's wrapper would have retried to success after
one 180-unit sleep. -/
theorem C5_counterexample :
    (move_image_run "R" "ai" (MoverEnv.mk Outcome.connErr (Outcome.ok ()))
        (ItemState.mk "u/f.jpg" [Tag.mk 1 "ai:cats"])).2.2 = some CallError.conn
    ∧ webdav_exception_handler [Outcome.connErr, Outcome.ok 0] = some (Except.ok 0, 180) :=
  ⟨rfl, rfl⟩

/-- C5 (amended): only the scaler's remote calls pass through the retry
wrapper: a wrapped call never ends with the connectivity condition as its
outcome (it keeps retrying instead).  The mover's relocation transitions
invoke their remote operations directly, without the wrapper, so a
transient connectivity failure during a relocation move propagates out of
the state machine instead of being retried. -/
theorem C5_amended_wrapping {α : Type} (tr : List (Outcome α)) (r : Except CallError α)
    (t : Nat) (root marker : String) (menv : MoverEnv) (mst : ItemState)
    (hw : webdav_exception_handler tr = some (r, t))
    (hconn : menv.moveOutcome = Outcome.connErr) (hne : mst.tags ≠ []) :
    r ≠ Except.error CallError.conn
    ∧ (move_image_run root marker menv mst).2.2 = some CallError.conn := by
  refine ⟨wrapper_never_conn tr r t hw, ?_⟩
  obtain ⟨p, tags⟩ := mst
  cases tags with
  | nil => exact absurd rfl hne
  | cons t0 rest => simp [move_image_run, hconn]

/-- C5 witness: the amended statement evaluated on a wrapper trace that
returns 0 at once and on a relocation whose move hits a connectivity
failure. -/
theorem C5_witness :
    (Except.ok 0 : Except CallError Nat) ≠ Except.error CallError.conn
    ∧ (move_image_run "R" "ai" (MoverEnv.mk Outcome.connErr (Outcome.ok ()))
        (ItemState.mk "u/f.jpg" [Tag.mk 1 "ai:cats"])).2.2 = some CallError.conn :=
  C5_amended_wrapping [Outcome.ok 0] (Except.ok 0) 0 "R" "ai"
    (MoverEnv.mk Outcome.connErr (Outcome.ok ()))
    (ItemState.mk "u/f.jpg" [Tag.mk 1 "ai:cats"]) rfl rfl (by decide)

theorem get_images_list_fst (ps : List String) :
    ∀ entries : List RawEntry,
      (get_images_list ps entries).1 = prefixFilterSpec ps (entries.filterMap wfOf) := by
  intro entries
  induction entries with
  | nil => rfl
  | cons e rest ih =>
    obtain ⟨pOpt, dOpt⟩ := e
    cases pOpt with
    | none => simpa [get_images_list, entry_scan, wfOf] using ih
    | some p =>
      by_cases hc : (ps.any fun s => strStarts (lastComponent p) s) = true
      · cases dOpt with
        | none => simpa [get_images_list, entry_scan, wfOf, hc] using ih
        | some d =>
          cases d with
          | true =>
            simpa [get_images_list, entry_scan, wfOf, hc, prefixFilterSpec] using ih
          | false =>
            simpa [get_images_list, entry_scan, wfOf, hc, prefixFilterSpec] using ih
      · cases dOpt with
        | none => simpa [get_images_list, entry_scan, wfOf, hc] using ih
        | some d =>
          simpa [get_images_list, entry_scan, wfOf, hc, prefixFilterSpec,
            Bool.eq_false_iff.mpr hc] using ih

theorem wf_roundtrip : ∀ ents : List (String × Bool), (ents.map wfEntry).filterMap wfOf = ents := by
  intro ents
  induction ents with
  | nil => rfl
  | cons e rest ih => simp [wfEntry, wfOf, ih]

/-- C6: over a listing whose entries all carry their expected fields, an
entry's path appears in files_for_processing exactly when the entry is
not a directory and its base name starts with one of the configured
prefixes, and the returned list keeps the listing order: the scan equals
the order-preserving prefix filter written from the specification. -/
theorem C6_filter_correctness (ps : List String) (ents : List (String × Bool)) :
    (get_images_list ps (ents.map wfEntry)).1 = prefixFilterSpec ps ents := by
  rw [get_images_list_fst, wf_roundtrip]

theorem get_images_list_logged (ps : List String) :
    ∀ entries : List RawEntry,
      ∀ e ∈ (get_images_list ps entries).2, e.path = none ∨ e.isdir = none := by
  intro entries
  induction entries with
  | nil => intro e h; exact absurd h (by simp [get_images_list])
  | cons e0 rest ih =>
    intro e he
    obtain ⟨pOpt, dOpt⟩ := e0
    cases pOpt with
    | none =>
      simp only [get_images_list, entry_scan] at he
      rcases List.mem_cons.mp he with h | h
      · rw [h]; exact Or.inl rfl
      · exact ih e h
    | some p =>
      by_cases hc : (ps.any fun s => strStarts (lastComponent p) s) = true
      · cases dOpt with
        | none =>
          simp only [get_images_list, entry_scan, hc, if_true] at he
          rcases List.mem_cons.mp he with h | h
          · rw [h]; exact Or.inr rfl
          · exact ih e h
        | some d =>
          cases d with
          | true => simp only [get_images_list, entry_scan, hc] at he; exact ih e (by simpa using he)
          | false => simp only [get_images_list, entry_scan, hc] at he; exact ih e (by simpa using he)
      · cases dOpt with
        | none =>
          simp only [get_images_list, entry_scan, hc] at he
          exact ih e (by simpa [Bool.eq_false_iff.mpr hc] using he)
        | some d =>
          simp only [get_images_list, entry_scan, hc] at he
          exact ih e (by simpa [Bool.eq_false_iff.mpr hc] using he)

/-- C7 counterexample: the claim says every malformed listing entry is
caught, logged with its raw data, and skipped.  An entry that lacks the
isdir field but whose base name matches no configured prefix never
reaches the isdir access (the conjunction short-circuits), so no
exception is raised and nothing is logged: the entry with path a/x and no
isdir field is malformed, yet the logged list of the scan is empty. -/
theorem C7_counterexample :
    (RawEntry.mk (some "a/x") none).isdir = none
    ∧ (get_images_list ["raw"] [RawEntry.mk (some "a/x") none]).2 = [] :=
  ⟨rfl, by decide⟩

/-- C7 (amended): the scan never aborts and its returned list equals the
prefix-filtered result over the well-formed entries alone; every entry
the except branch logs is malformed (missing its path or its isdir
field).  However only the malformed entries whose processing actually
raises (a missing path, or a missing isdir on a name that matches a
configured prefix) are caught and logged; a malformed entry whose name
check already fails is skipped silently. -/
theorem C7_amended_scan (ps : List String) (entries : List RawEntry) :
    (get_images_list ps entries).1 = prefixFilterSpec ps (entries.filterMap wfOf)
    ∧ ∀ e ∈ (get_images_list ps entries).2, e.path = none ∨ e.isdir = none :=
  ⟨get_images_list_fst ps entries, get_images_list_logged ps entries⟩

/-- C7 witness: the amended statement evaluated on a one-entry listing
whose entry lacks both fields; the entry is logged and is malformed. -/
theorem C7_witness :
    (get_images_list ["raw"] [RawEntry.mk none none]).1
        = prefixFilterSpec ["raw"] ([RawEntry.mk none none].filterMap wfOf)
    ∧ ((RawEntry.mk none none).path = none ∨ (RawEntry.mk none none).isdir = none) :=
  ⟨(C7_amended_scan ["raw"] [RawEntry.mk none none]).1,
   (C7_amended_scan ["raw"] [RawEntry.mk none none]).2 (RawEntry.mk none none) (by decide)⟩

/-- C8: for a discovered item whose tag list is empty, the mover's
per-item processing is a no-op apart from the tag query: the item's path
and tag set are unchanged, the only remote operation issued is the tag
read (no move, no tag unassign), and no error occurs; by the same
equation, move plus tag-clear is reached only when the tag list is
non-empty. -/
theorem C8_empty_tags_noop (root marker : String) (env : MoverEnv) (st : ItemState)
    (h : st.tags = []) :
    (process_node root marker env st).1 = st
    ∧ (process_node root marker env st).2.1 = [MOp.getTags]
    ∧ (process_node root marker env st).2.2 = none := by
  simp [process_node, h]

/-- C8 witness: the no-op statement evaluated on an untagged item. -/
theorem C8_witness :
    (process_node "R" "ai" (MoverEnv.mk (Outcome.ok ()) (Outcome.ok ()))
        (ItemState.mk "u/f.jpg" [])).1 = ItemState.mk "u/f.jpg" []
    ∧ (process_node "R" "ai" (MoverEnv.mk (Outcome.ok ()) (Outcome.ok ()))
        (ItemState.mk "u/f.jpg" [])).2.1 = [MOp.getTags]
    ∧ (process_node "R" "ai" (MoverEnv.mk (Outcome.ok ()) (Outcome.ok ()))
        (ItemState.mk "u/f.jpg" [])).2.2 = none :=
  C8_empty_tags_noop "R" "ai" (MoverEnv.mk (Outcome.ok ()) (Outcome.ok ()))
    (ItemState.mk "u/f.jpg" []) rfl

theorem sched_boundedBy {α : Type} :
    ∀ (items : List α) (poll : Nat), poll ≤ THREADS_LIMIT →
      boundedBy THREADS_LIMIT poll (sched poll items) = true := by
  intro items
  induction items with
  | nil => intro poll _; simp [sched, boundedBy]
  | cons x rest ih =>
    intro poll hpoll
    by_cases h10 : THREADS_LIMIT ≤ poll
    · simp only [sched, h10, if_true, boundedBy, Bool.and_eq_true, decide_eq_true_eq]
      exact ⟨by simp [THREADS_LIMIT], ih 1 (by simp [THREADS_LIMIT])⟩
    · simp only [sched, h10, if_false, boundedBy, Bool.and_eq_true, decide_eq_true_eq]
      exact ⟨by omega, ih (poll + 1) (by omega)⟩

theorem sched_ne_nil {α : Type} (poll : Nat) (items : List α) : sched poll items ≠ [] := by
  cases items with
  | nil => simp [sched]
  | cons x rest =>
    by_cases h : THREADS_LIMIT ≤ poll <;> simp [sched, h]

theorem sched_getLast {α : Type} :
    ∀ (items : List α) (poll : Nat), (sched poll items).getLast? = some SEv.joinAll := by
  intro items
  induction items with
  | nil => intro poll; rfl
  | cons x rest ih =>
    intro poll
    by_cases h : THREADS_LIMIT ≤ poll
    · obtain ⟨y, l, hyl⟩ := List.exists_cons_of_ne_nil (sched_ne_nil 1 rest)
      rw [sched, if_pos h, hyl, List.getLast?_cons_cons, List.getLast?_cons_cons, ← hyl, ih 1]
    · obtain ⟨y, l, hyl⟩ := List.exists_cons_of_ne_nil (sched_ne_nil (poll + 1) rest)
      rw [sched, if_neg h, hyl, List.getLast?_cons_cons, ← hyl, ih (poll + 1)]

/-- C9: the batch scheduler of the scaler main loop never has more than
THREADS_LIMIT (10) worker threads alive at any point of its event
sequence: whenever the in-flight batch holds THREADS_LIMIT threads it
joins every one of them before starting another, and when the item list
is non-empty the cycle's final event joins all remaining threads. -/
theorem C9_concurrency_bound {α : Type} (items : List α) :
    boundedBy THREADS_LIMIT 0 (scheduler_events items) = true
    ∧ (items ≠ [] → (scheduler_events items).getLast? = some SEv.joinAll) := by
  cases items with
  | nil => exact ⟨rfl, fun h => absurd rfl h⟩
  | cons x rest =>
    exact ⟨sched_boundedBy (x :: rest) 0 (by simp [THREADS_LIMIT]),
      fun _ => sched_getLast (x :: rest) 0⟩

/-- C9 witness: the bound and the final join evaluated on a 23-item
cycle (two full batches of 10 and a final partial batch). -/
theorem C9_witness :
    boundedBy THREADS_LIMIT 0 (scheduler_events (List.range 23)) = true
    ∧ (scheduler_events (List.range 23)).getLast? = some SEv.joinAll :=
  ⟨(C9_concurrency_bound (List.range 23)).1,
   (C9_concurrency_bound (List.range 23)).2 (by decide)⟩

/-- C3: when the transform leaves no output file on disk
(increase_resolution's os.path.exists check fails) and the generated
output name is fresh, the downloaded local input file still exists after
the task and no remote source deletion is attempted: the upload step
raises on the missing local file and the task ends before
delete_source_image. -/
theorem C3_transform_safety (raw unsorted workdir outdir : String) (env : ScalerEnv)
    (file : String) (st : FS)
    (hdl : env.downloadOk = true) (htr : env.transformOk = false)
    (hfresh : ((workdir ++ "/" ++ lastComponent file) :: st.localFiles).contains
        (outdir ++ "/" ++ env.newName) = false) :
    (workdir ++ "/" ++ lastComponent file)
        ∈ (multi_threading_run raw unsorted workdir outdir env file st).1.localFiles
    ∧ ∀ p b, SOp.deleteSrc p b
        ∉ (multi_threading_run raw unsorted workdir outdir env file st).2 := by
  have hf : ¬(outdir ++ "/" ++ env.newName = workdir ++ "/" ++ lastComponent file
      ∨ outdir ++ "/" ++ env.newName ∈ st.localFiles) := by
    simpa using hfresh
  constructor
  · simp [multi_threading_run, hdl, htr, hf]
  · intro p b
    simp [multi_threading_run, hdl, htr, hf]

/-- C3 witness: the safety statement evaluated on a task whose transform
produces nothing, starting from empty file systems. -/
theorem C3_witness :
    ("w" ++ "/" ++ lastComponent "d/a.jpg")
        ∈ (multi_threading_run "_raw" "_uns" "w" "o"
            (ScalerEnv.mk true false "n.png" true true) "d/a.jpg" (FS.mk [] [])).1.localFiles
    ∧ ∀ p b, SOp.deleteSrc p b
        ∉ (multi_threading_run "_raw" "_uns" "w" "o"
            (ScalerEnv.mk true false "n.png" true true) "d/a.jpg" (FS.mk [] [])).2 :=
  C3_transform_safety "_raw" "_uns" "w" "o" (ScalerEnv.mk true false "n.png" true true)
    "d/a.jpg" (FS.mk [] []) rfl rfl (by decide)

theorem scaler_delete_after_upload (raw unsorted workdir outdir : String) (env : ScalerEnv)
    (file : String) (st : FS) :
    deleteOnlyAfterUpload false
        (multi_threading_run raw unsorted workdir outdir env file st).2 = true
    ∧ (env.uploadOk = false →
        ∀ p b, SOp.deleteSrc p b
          ∉ (multi_threading_run raw unsorted workdir outdir env file st).2) := by
  obtain ⟨d, t, nn, u, del⟩ := env
  constructor
  · cases d <;> cases t <;> cases u <;> cases del <;>
      simp only [multi_threading_run] <;> (repeat' split) <;>
      simp_all [deleteOnlyAfterUpload]
  · intro hu
    simp only at hu
    subst hu
    intro p b
    cases d <;> cases t <;> cases del <;>
      simp only [multi_threading_run] <;> (repeat' split) <;>
      simp_all

theorem mover_unassign_after_move (root marker : String) (menv : MoverEnv) (mst : ItemState) :
    unassignOnlyAfterMove false (move_image_run root marker menv mst).2.1 = true
    ∧ (menv.moveOutcome ≠ Outcome.ok () →
        (∀ tid b, MOp.unassign tid b ∉ (move_image_run root marker menv mst).2.1)
        ∧ (move_image_run root marker menv mst).1 = mst) := by
  obtain ⟨mo, uo⟩ := menv
  obtain ⟨p, tags⟩ := mst
  cases tags with
  | nil => cases mo <;> cases uo <;> simp [move_image_run, unassignOnlyAfterMove]
  | cons t0 rest =>
    cases mo with
    | ok uq =>
      cases uq
      cases uo <;> simp [move_image_run, unassignOnlyAfterMove]
    | connErr => cases uo <;> simp [move_image_run, unassignOnlyAfterMove]
    | otherErr e => cases uo <;> simp [move_image_run, unassignOnlyAfterMove]

/-- C4: destructive steps happen only after the destination write is
confirmed.  In the transform pipeline, a remote source deletion is
attempted only after an upload that completed, and when the upload fails
no deletion is attempted at all.  In the relocation, the tag unassign is
attempted only after a move that completed, and when the move fails no
unassign is attempted and the item (path and tags) is unchanged. -/
theorem C4_write_before_destroy (raw unsorted workdir outdir : String) (env : ScalerEnv)
    (file : String) (st : FS) (root marker : String) (menv : MoverEnv) (mst : ItemState) :
    deleteOnlyAfterUpload false
        (multi_threading_run raw unsorted workdir outdir env file st).2 = true
    ∧ (env.uploadOk = false →
        ∀ p b, SOp.deleteSrc p b
          ∉ (multi_threading_run raw unsorted workdir outdir env file st).2)
    ∧ unassignOnlyAfterMove false (move_image_run root marker menv mst).2.1 = true
    ∧ (menv.moveOutcome ≠ Outcome.ok () →
        (∀ tid b, MOp.unassign tid b ∉ (move_image_run root marker menv mst).2.1)
        ∧ (move_image_run root marker menv mst).1 = mst) :=
  ⟨(scaler_delete_after_upload raw unsorted workdir outdir env file st).1,
   (scaler_delete_after_upload raw unsorted workdir outdir env file st).2,
   (mover_unassign_after_move root marker menv mst).1,
   (mover_unassign_after_move root marker menv mst).2⟩

/-- C4 witness: the ordering statement evaluated on a transform task
whose upload fails and a relocation whose move hits a connectivity
failure. -/
theorem C4_witness :
    deleteOnlyAfterUpload false (multi_threading_run "_raw" "_uns" "w" "o"
        (ScalerEnv.mk true true "n.png" false true) "d/a.jpg" (FS.mk [] [])).2 = true
    ∧ (∀ p b, SOp.deleteSrc p b ∉ (multi_threading_run "_raw" "_uns" "w" "o"
        (ScalerEnv.mk true true "n.png" false true) "d/a.jpg" (FS.mk [] [])).2)
    ∧ unassignOnlyAfterMove false (move_image_run "R" "ai"
        (MoverEnv.mk Outcome.connErr (Outcome.ok ()))
        (ItemState.mk "u/f.jpg" [Tag.mk 1 "ai:cats"])).2.1 = true
    ∧ (∀ tid b, MOp.unassign tid b ∉ (move_image_run "R" "ai"
        (MoverEnv.mk Outcome.connErr (Outcome.ok ()))
        (ItemState.mk "u/f.jpg" [Tag.mk 1 "ai:cats"])).2.1)
    ∧ (move_image_run "R" "ai" (MoverEnv.mk Outcome.connErr (Outcome.ok ()))
        (ItemState.mk "u/f.jpg" [Tag.mk 1 "ai:cats"])).1
        = ItemState.mk "u/f.jpg" [Tag.mk 1 "ai:cats"] := by
  have h := C4_write_before_destroy "_raw" "_uns" "w" "o"
    (ScalerEnv.mk true true "n.png" false true) "d/a.jpg" (FS.mk [] []) "R" "ai"
    (MoverEnv.mk Outcome.connErr (Outcome.ok ()))
    (ItemState.mk "u/f.jpg" [Tag.mk 1 "ai:cats"])
  exact ⟨h.1, h.2.1 rfl, h.2.2.1, (h.2.2.2 (by decide)).1, (h.2.2.2 (by decide)).2⟩

/-- C10: the transform pipeline addresses the remote store at
RAW_REMOTE_DIR/basename: the first operation of a task is the download
whose remote path replaces any directory part of the listed path with the
configured raw directory, and every attempted source deletion uses that
same rebuilt path. -/
theorem C10_raw_directory_paths (raw unsorted workdir outdir : String) (env : ScalerEnv)
    (file : String) (st : FS) :
    (multi_threading_run raw unsorted workdir outdir env file st).2.head?
      = some (SOp.download (raw ++ "/" ++ lastComponent file)
          (workdir ++ "/" ++ lastComponent file) env.downloadOk)
    ∧ ∀ p b,
        SOp.deleteSrc p b ∈ (multi_threading_run raw unsorted workdir outdir env file st).2 →
          p = raw ++ "/" ++ lastComponent file := by
  obtain ⟨d, t, nn, u, del⟩ := env
  constructor
  · cases d <;> cases t <;>
      simp only [multi_threading_run] <;> (repeat' split) <;> simp_all
  · intro p b
    cases d <;> cases t <;> cases u <;> cases del <;>
      simp only [multi_threading_run] <;> (repeat' split) <;>
      (intro hmem
       simp_all)

/-- C10 witness: the path statement evaluated on a fully successful task
for the listed path d/a.jpg in raw directory _raw. -/
theorem C10_witness :
    (multi_threading_run "_raw" "_uns" "w" "o" (ScalerEnv.mk true true "n.png" true true)
        "d/a.jpg" (FS.mk [] [])).2.head?
      = some (SOp.download ("_raw" ++ "/" ++ lastComponent "d/a.jpg")
          ("w" ++ "/" ++ lastComponent "d/a.jpg") true)
    ∧ ("_raw/a.jpg" : String) = "_raw" ++ "/" ++ lastComponent "d/a.jpg" :=
  ⟨(C10_raw_directory_paths "_raw" "_uns" "w" "o" (ScalerEnv.mk true true "n.png" true true)
      "d/a.jpg" (FS.mk [] [])).1,
   (C10_raw_directory_paths "_raw" "_uns" "w" "o" (ScalerEnv.mk true true "n.png" true true)
      "d/a.jpg" (FS.mk [] [])).2 "_raw/a.jpg" true (by decide)⟩

end JHScripts
